import Mathlib

/-!
Verification development for the reachout-bot repository.

This file gives a shallow embedding, in Lean 4, of the parts of the
TypeScript source that the checked claims are about:

* the workflow operations of `ReachOutWorkflow`
  (`src/backend/index.ts`: `initiateOutreach`, `generateEmailDraft`,
  `recordApproval`, `sendEmailWithApproval`, `getAdvisoryRiskAssessment`),
* the schema validators (`src/shared/validation.ts`),
* the mock persistence store and mock mail transport
  (`MockSupabaseService`, `MockEmailService` in the mocks module),
* the NGO search pipeline (`src/integrations/ngo-search.ts`:
  `searchNGOs`, `extractEnhancedKeywords`,
  `calculateEnhancedRelevanceScore` and its signal functions),
* the sentiment part of the tone analyzer
  (`src/integrations/tone-analyzer.ts`: `analyzeSentiment`).

Modelling conventions:

* ISO-8601 timestamp strings are abstracted as integers (epoch
  milliseconds); the JS comparison `new Date(a) > new Date(b)` becomes
  integer `>`.  A single `now : Int` parameter stands for `new Date()`.
* JS `Map`s of the in-memory mock database are modelled as functions
  `String → Option α`; `Map.set` is pointwise update.
* `uuidv4()` results are passed in as `fresh`/`freshId` parameters:
  the generated identifier is data, never inspected by the logic.
* JS numbers that carry fractional values (the AI confidence score)
  are modelled as `Rat`; whole-number scores as `Int`.
* Fallible operations and dynamic-typing failures (a thrown
  `TypeError`) are modelled with `Except String`.
* Logging calls have no observable effect and are dropped.
-/

/-! ## Basic string helpers (JS `String.prototype.includes`, split) -/

/-- JS `hay.includes needle` on explicit character lists: some contiguous
substring of `hay` equals `needle`. -/
def containsSub : List Char → List Char → Bool
  | hay, needle =>
    needle.isPrefixOf hay ||
      match hay with
      | [] => false
      | _ :: t => containsSub t needle

/-- JS `toLowerCase()` on strings, written over the character list so
that it reduces in the kernel (the source texts are ASCII). -/
def strToLower (s : String) : String := ⟨s.data.map Char.toLower⟩

/-- JS `String.prototype.trim`: drop leading and trailing whitespace. -/
def jsTrim (s : String) : String :=
  ⟨((s.data.dropWhile Char.isWhitespace).reverse.dropWhile Char.isWhitespace).reverse⟩

/-- JS `split(/\\s+/)` up to empty fragments (which every caller below
filters away): split the character list at whitespace. -/
def splitWhitespace (s : String) : List String :=
  ((s.data.splitOnP Char.isWhitespace).map fun cs => (⟨cs⟩ : String))

/-- JS `hay.includes needle` on strings. -/
def strIncludes (hay needle : String) : Bool :=
  containsSub hay.data needle.data

/-! ## Data model (`src/shared/schemas.ts`) -/

/-- `NGOProfile` from `src/shared/schemas.ts`.  Optional TS fields are
`Option`s; timestamps are abstracted to `Int`. -/
structure NGOProfile where
  id : String
  name : String
  email : String
  domain : String
  geography : Option String := none
  focusAreas : Option (List String) := none
  fitRationale : Option String := none
  partnerStatus : Option String := none
  hubspotContactId : Option String := none
  riskScore : Option Int := none
  controversySummary : Option String := none
  selectedForOutreach : Bool
  createdAt : Int := 0
  updatedAt : Int := 0
  deriving Repr, DecidableEq

/-- `DraftEmail` from `src/shared/schemas.ts`. -/
structure DraftEmail where
  id : String
  campaignId : String
  ngoId : String
  status : String
  subject : String
  body : String
  recipientEmail : String
  createdAt : Int := 0
  updatedAt : Int := 0
  approvedAt : Option Int := none
  approvedBy : Option String := none
  sentAt : Option Int := none
  sentBy : Option String := none
  failureReason : Option String := none
  deriving Repr, DecidableEq

/-- `UserApproval` from `src/shared/schemas.ts`. -/
structure UserApproval where
  id : String
  resourceType : String
  resourceId : String
  approvedBy : String
  approvalText : String
  approvedAt : Int
  expiresAt : Option Int := none
  deriving Repr, DecidableEq

/-- `IdempotencyKey` from `src/shared/schemas.ts`.  The opaque `result`
payload is modelled below once `EmailSendResult` is available. -/
structure IdempotencyKeyData where
  key : String
  operationType : String
  resourceId : String
  createdAt : Int
  completedAt : Option Int := none
  deriving Repr, DecidableEq

/-- `RiskAssessment` from `src/shared/schemas.ts`. -/
structure RiskAssessment where
  ngoId : String
  riskScore : Int
  controversySummary : String
  sources : List String
  issueClusters : List String
  advisoryOnly : Bool
  lastAssessedAt : Int
  deriving Repr, DecidableEq

/-- Values stored in the untyped `data : Record<string, unknown>` bag of
a `WorkflowState`.  The workflow writes profiles, strings and
timestamps into it and never reads it back. -/
inductive BagValue where
  | str (s : String)
  | num (n : Int)
  | profile (p : NGOProfile)
  deriving Repr, DecidableEq

/-- `WorkflowState` from `src/shared/schemas.ts`; `stage` is kept as the
literal string of the TS union type. -/
structure WorkflowState where
  id : String
  campaignId : String
  ngoId : String
  stage : String
  data : List (String × BagValue)
  createdAt : Int
  updatedAt : Int
  createdBy : String
  deriving Repr, DecidableEq

/-- `EmailSendResult` from `src/integrations/interfaces.ts`. -/
structure EmailSendResult where
  success : Bool
  emailId : Option String := none
  messageId : Option String := none
  sentAt : Option Int := none
  error : Option String := none
  deriving Repr, DecidableEq

/-- An `IdempotencyKey` record together with its `result` payload (the
send result stored by `sendEmailWithApproval`). -/
structure IdempotencyKey extends IdempotencyKeyData where
  result : Option EmailSendResult := none
  deriving Repr, DecidableEq

/-! ## The in-memory mock database (`mockDatabase` in the mocks module) -/

/-- The `mockDatabase` record of in-memory `Map`s used by
`MockSupabaseService` / `MockEmailService`.  (`contacts` is only used
by the HubSpot mock, which no claim touches, and is omitted.) -/
structure Store where
  emails : String → Option DraftEmail
  workflows : String → Option WorkflowState
  approvals : String → Option UserApproval
  ngoProfiles : String → Option NGOProfile
  idempotencyKeys : String → Option IdempotencyKey
  sentEmails : String → Option EmailSendResult

/-- `Map.set`: pointwise update of a string-keyed map. -/
def setMap {β : Type} (m : String → Option β) (k : String) (v : β) :
    String → Option β :=
  fun x => if x = k then some v else m x

/-- The empty mock database. -/
def emptyStore : Store :=
  { emails := fun _ => none
    workflows := fun _ => none
    approvals := fun _ => none
    ngoProfiles := fun _ => none
    idempotencyKeys := fun _ => none
    sentEmails := fun _ => none }

/-! ## Mail transport (`IEmailService.sendApprovedEmail`) -/

/-- A mail transport: the `sendApprovedEmail` collaborator.  It returns
an `EmailSendResult` and may touch the shared mock database (the mock
implementation re-saves the draft it was handed). -/
structure EmailTransport where
  send : DraftEmail → UserApproval → Store → EmailSendResult × Store

/-- The `EmailSendResult` built by `MockEmailService.sendApprovedEmail`. -/
def mockSendResult (now : Int) (fresh : String) : EmailSendResult :=
  { success := true
    emailId := some fresh
    messageId := some ("mock-msg-" ++ fresh)
    sentAt := some now }

/-- The draft as mutated by `MockEmailService.sendApprovedEmail`:
`draftEmail.status = "sent"; draftEmail.sentAt = sentAt`. -/
def markSent (draftEmail : DraftEmail) (now : Int) : DraftEmail :=
  { draftEmail with status := "sent", sentAt := some now }

/-- `MockEmailService.sendApprovedEmail` (mocks module): always
succeeds, records the result under a fresh id in `sentEmails`, mutates
the draft it was handed to `status = "sent"` and re-saves it into
`mockDatabase.emails` under the draft's own id.  (`writeSentEmail`
writes to disk and is outside the model; the simulated delay is
dropped.) -/
def mockEmailService (now : Int) (fresh : String) : EmailTransport where
  send := fun draftEmail _approval s =>
    let result := mockSendResult now fresh
    let s1 := { s with sentEmails := setMap s.sentEmails fresh result }
    let sentDraft := markSent draftEmail now
    (result, { s1 with emails := setMap s1.emails draftEmail.id sentDraft })

/-! ## Workflow results (`src/backend/index.ts` result interfaces) -/

/-- `SendEmailResult` from `src/backend/index.ts`. -/
structure SendEmailResult where
  success : Bool
  emailId : Option String := none
  messageId : Option String := none
  sentAt : Option Int := none
  message : Option String := none
  error : Option String := none
  deriving Repr, DecidableEq

/-- `WorkflowInitResult` from `src/backend/index.ts` (the persisted
`workflowState` field is recoverable from the returned store and is
not duplicated here). -/
structure WorkflowInitResult where
  success : Bool
  workflowId : Option String := none
  error : Option String := none
  deriving Repr, DecidableEq

/-- `RecordApprovalResult` from `src/backend/index.ts`. -/
structure RecordApprovalResult where
  success : Bool
  approvalId : Option String := none
  error : Option String := none
  deriving Repr, DecidableEq

/-- The completed `IdempotencyKey` record that `sendEmailWithApproval`
persists after a successful dispatch (`idempKey` in the source). -/
def completedSendKey (emailId : String) (now : Int)
    (sendResult : EmailSendResult) : IdempotencyKey :=
  { key := "email-send-" ++ emailId
    operationType := "send_email"
    resourceId := emailId
    createdAt := now
    completedAt := some now
    result := some sendResult }

/-! ## `ReachOutWorkflow.sendEmailWithApproval` (`src/backend/index.ts`)

The embedding returns the `SendEmailResult`, the store after the call,
and the number of times the mail transport was invoked during the call
(`0` or `1`) — the instrumentation needed to state the
"never invokes the mail transport" / "exactly one dispatch" claims. -/

/-- `sendEmailWithApproval(ctx, emailId, approval)`: load the draft,
return success idempotently if already sent, validate the *supplied*
approval (identity, not-future-dated, not expired), consult the
idempotency key, invoke the transport, and record the completed key on
success.  Direct translation of `src/backend/index.ts` lines 382-462. -/
def sendEmailWithApproval (t : EmailTransport) (now : Int) (s : Store)
    (emailId : String) (approval : UserApproval) :
    SendEmailResult × Store × Nat :=
  match s.emails emailId with
  | none =>
    ({ success := false, error := some ("Draft email not found: " ++ emailId) }, s, 0)
  | some draftEmail =>
    if draftEmail.status = "sent" then
      ({ success := true, message := some "Email already sent",
         emailId := some emailId }, s, 0)
    else if approval.id = "" ∨ approval.resourceType ≠ "email" ∨
        approval.resourceId ≠ emailId then
      ({ success := false, error := some "Invalid approval for this email" }, s, 0)
    else if approval.approvedAt > now then
      ({ success := false, error := some "Approval is not yet valid" }, s, 0)
    else if approval.expiresAt.any (fun e => decide (now > e)) then
      ({ success := false, error := some "Approval has expired" }, s, 0)
    else
      let idempotencyKey := "email-send-" ++ emailId
      match s.idempotencyKeys idempotencyKey with
      | some existingKey =>
        if existingKey.completedAt.isSome then
          ({ success := true, message := some "Email already sent (idempotency)",
             emailId := some emailId }, s, 0)
        else
          sendEmailDispatch t now s emailId approval draftEmail idempotencyKey
      | none =>
        sendEmailDispatch t now s emailId approval draftEmail idempotencyKey
where
  /-- The tail of `sendEmailWithApproval` after the idempotency check:
  invoke the transport and, on success, record the completed key. -/
  sendEmailDispatch (t : EmailTransport) (now : Int) (s : Store)
      (emailId : String) (approval : UserApproval) (draftEmail : DraftEmail)
      (idempotencyKey : String) : SendEmailResult × Store × Nat :=
    let sent := t.send draftEmail approval s
    let sendResult := sent.1
    let s1 := sent.2
    if ¬ sendResult.success then
      ({ success := false, error := sendResult.error }, s1, 1)
    else
      let idempKey := completedSendKey emailId now sendResult
      let s2 := { s1 with
        idempotencyKeys := setMap s1.idempotencyKeys idempotencyKey idempKey }
      ({ success := true, emailId := some emailId,
         messageId := sendResult.messageId, sentAt := sendResult.sentAt }, s2, 1)

/-! ## Validation (`src/shared/validation.ts`) -/

/-- A `ValidationError` entry: field, message, and the error-kind tag
(`missing_required` / `type_mismatch` / `format_invalid` /
`constraint_violation`). -/
structure VError where
  field : String
  message : String
  type : String
  deriving Repr, DecidableEq

/-- `formatValidationErrors`: render each error as
`[type] field: message` and join with newlines. -/
def formatValidationErrors (errors : List VError) : String :=
  String.intercalate "\n"
    (errors.map fun err => "[" ++ err.type ++ "] " ++ err.field ++ ": " ++ err.message)

/-- Untyped JSON-like values, the shape of the unvalidated `unknown`
data returned by the AI generation collaborator.  `num` carries a
rational, standing for a JS number. -/
inductive JsonValue where
  | jnull
  | jbool (b : Bool)
  | jnum (q : Rat)
  | jstr (s : String)
  | jarr (items : List JsonValue)
  | jobj (fields : List (String × JsonValue))

/-- Property lookup on a JS object modelled as an association list
(first binding wins; JS objects cannot repeat keys). -/
def jsonLookup : List (String × JsonValue) → String → Option JsonValue
  | [], _ => none
  | (k, v) :: t, f => if k = f then some v else jsonLookup t f

/-- The guard `!data || typeof data !== "object"` of the validators:
`none` (JS `undefined`), `null`, booleans, numbers and strings are
rejected (falsy, or `typeof` not `"object"`); objects expose their
fields; arrays pass the guard (`typeof [] === "object"`) but have none
of the named fields. -/
def fieldsOf : Option JsonValue → Option (List (String × JsonValue))
  | some (.jobj fs) => some fs
  | some (.jarr _) => some []
  | _ => none

/-- Dynamic property access `data[f]` through the object guard. -/
def jsonField (data : Option JsonValue) (f : String) : Option JsonValue :=
  match fieldsOf data with
  | some fs => jsonLookup fs f
  | none => none

/-- `typeof v === "string"` on a looked-up field (`none` = absent). -/
def isJStr : Option JsonValue → Bool
  | some (.jstr _) => true
  | _ => false

/-- Extract a string field, defaulting to `""` (only used after
validation has guaranteed the field is a string). -/
def getJStr : Option JsonValue → String
  | some (.jstr s) => s
  | _ => ""

/-- Extract a string-array field, defaulting missing/non-string items
to `""` (only used after validation). -/
def getJStrList : Option JsonValue → List String
  | some (.jarr items) => items.map fun v => getJStr (some v)
  | _ => []

/-- Extract a number field, defaulting to `0` (only used after
validation). -/
def getJNum : Option JsonValue → Rat
  | some (.jnum q) => q
  | _ => 0

/-- The validated `AIGeneratedEmail` payload
(`src/shared/schemas.ts`). -/
structure AIGeneratedEmail where
  subject : String
  body : String
  tone : String
  targetNGOName : String
  personalizationNotes : List String
  confidence : Rat
  validationErrors : List String
  deriving Repr, DecidableEq

/-- A `ValidationResult<T>` from `src/shared/validation.ts`. -/
structure ValidationResult (T : Type) where
  valid : Bool
  data : Option T := none
  errors : List VError
  deriving Repr, DecidableEq

/-- The required-field list of `validateAIGeneratedEmail`. -/
def aiRequiredFields : List String :=
  ["subject", "body", "tone", "targetNGOName", "personalizationNotes",
   "confidence", "validationErrors"]

/-- The tone enum of `AIGeneratedEmail`. -/
def aiToneEnum : List String := ["professional", "friendly", "formal", "casual"]

/-- Per-index `type_mismatch` errors for a string-array field: one
error for each item that is not a string. -/
def stringArrayItemErrors (fieldName : String) : List JsonValue → Nat → List VError
  | [], _ => []
  | v :: rest, i =>
    (if isJStr (some v) then [] else
      [⟨fieldName ++ "[" ++ toString i ++ "]", "All items must be strings",
        "type_mismatch"⟩]) ++ stringArrayItemErrors fieldName rest (i + 1)

/-- The `missing_required` errors of `validateAIGeneratedEmail`. -/
def aiMissingErrors (fs : List (String × JsonValue)) : List VError :=
  aiRequiredFields.filterMap fun f =>
    if (jsonLookup fs f).isNone then
      some ⟨f, "Required field \"" ++ f ++ "\" is missing", "missing_required"⟩
    else none

/-- The tone-enum check of `validateAIGeneratedEmail`. -/
def aiToneErrors (fs : List (String × JsonValue)) : List VError :=
  match jsonLookup fs "tone" with
  | some (.jstr t) =>
    if t ∈ aiToneEnum then [] else
      [⟨"tone", "tone must be one of: professional, friendly, formal, casual",
        "constraint_violation"⟩]
  | _ =>
    [⟨"tone", "tone must be one of: professional, friendly, formal, casual",
      "constraint_violation"⟩]

/-- The confidence-range check of `validateAIGeneratedEmail`. -/
def aiConfidenceErrors (fs : List (String × JsonValue)) : List VError :=
  match jsonLookup fs "confidence" with
  | some (.jnum c) =>
    if c < 0 ∨ c > 1 then
      [⟨"confidence", "confidence must be a number between 0 and 1",
        "constraint_violation"⟩]
    else []
  | _ =>
    [⟨"confidence", "confidence must be a number between 0 and 1",
      "constraint_violation"⟩]

/-- The full error list accumulated by `validateAIGeneratedEmail` over
an object's fields, in the source's push order. -/
def aiValidationErrorList (fs : List (String × JsonValue)) : List VError :=
  let look := jsonLookup fs
  let subjectErrs := if isJStr (look "subject") then [] else
    [⟨"subject", "subject must be a string", "type_mismatch"⟩]
  let bodyErrs := if isJStr (look "body") then [] else
    [⟨"body", "body must be a string", "type_mismatch"⟩]
  let targetErrs := if isJStr (look "targetNGOName") then [] else
    [⟨"targetNGOName", "targetNGOName must be a string", "type_mismatch"⟩]
  let notesErrs :=
    (match look "personalizationNotes" with
     | some (.jarr items) => stringArrayItemErrors "personalizationNotes" items 0
     | _ =>
       [⟨"personalizationNotes", "personalizationNotes must be an array of strings",
         "type_mismatch"⟩])
  let vErrErrs :=
    (match look "validationErrors" with
     | some (.jarr items) => stringArrayItemErrors "validationErrors" items 0
     | _ =>
       [⟨"validationErrors", "validationErrors must be an array of strings",
         "type_mismatch"⟩])
  aiMissingErrors fs ++ subjectErrs ++ bodyErrs ++ aiToneErrors fs ++
    targetErrs ++ notesErrs ++ aiConfidenceErrors fs ++ vErrErrs

/-- `validateAIGeneratedEmail` (`src/shared/validation.ts` lines
29-145): required-field presence, per-field type checks, tone enum,
confidence range `[0,1]`, homogeneous string arrays.  Errors are
accumulated in the source's order. -/
def validateAIGeneratedEmail (data : Option JsonValue) :
    ValidationResult AIGeneratedEmail :=
  match fieldsOf data with
  | none =>
    { valid := false,
      errors := [⟨"root", "Data must be an object", "type_mismatch"⟩] }
  | some fs =>
    let look := jsonLookup fs
    let errors := aiValidationErrorList fs
    if errors.isEmpty then
      { valid := true,
        data := some
          { subject := getJStr (look "subject")
            body := getJStr (look "body")
            tone := getJStr (look "tone")
            targetNGOName := getJStr (look "targetNGOName")
            personalizationNotes := getJStrList (look "personalizationNotes")
            confidence := getJNum (look "confidence")
            validationErrors := getJStrList (look "validationErrors") },
        errors := [] }
    else
      { valid := false, errors := errors }

/-- `isValidEmail` (`src/shared/validation.ts`): the regex
`^[^\s@]+@[^\s@]+\.[^\s@]+$`.  Equivalently: the string contains
exactly one `@` and no whitespace, the part before `@` is nonempty,
and the part after `@` contains a `.` that is neither its first nor
its last character. -/
def isValidEmail (email : String) : Bool :=
  match email.data.splitOn '@' with
  | [localPart, domainPart] =>
    (!localPart.isEmpty) &&
    localPart.all (fun c => !c.isWhitespace) &&
    domainPart.all (fun c => !c.isWhitespace) &&
    ((domainPart.drop 1).dropLast.contains '.')
  | _ => false

/-- `validateDraftEmail` (`src/shared/validation.ts` lines 150-209) on
the typed `DraftEmail` record: the required-field `in` checks always
pass; the recipient-email format and the status enum are checked as in
the source (both guarded by truthiness of the field). -/
def validateDraftEmail (email : DraftEmail) : ValidationResult DraftEmail :=
  let emailErrs :=
    if email.recipientEmail ≠ "" ∧ ¬ isValidEmail email.recipientEmail then
      [⟨"recipientEmail", "recipientEmail must be a valid email address",
        "format_invalid"⟩]
    else []
  let statusErrs :=
    if email.status ≠ "" ∧ email.status ∉ ["draft", "approved", "sent", "failed"] then
      [⟨"status", "status must be one of: draft, approved, sent, failed",
        "constraint_violation"⟩]
    else []
  let errors := emailErrs ++ statusErrs
  if errors.isEmpty then { valid := true, data := some email, errors := [] }
  else { valid := false, errors := errors }

/-- `validateUserApproval` (`src/shared/validation.ts` lines 214-262)
on the typed `UserApproval` record: the required-field `in` checks
always pass; the resource-type enum is checked as in the source. -/
def validateUserApproval (approval : UserApproval) : ValidationResult UserApproval :=
  let errors :=
    if approval.resourceType ≠ "" ∧
        approval.resourceType ∉ ["email", "campaign", "outreach_batch"] then
      [⟨"resourceType", "resourceType must be one of: email, campaign, outreach_batch",
        "constraint_violation"⟩]
    else []
  if errors.isEmpty then { valid := true, data := some approval, errors := [] }
  else { valid := false, errors := errors }

/-! ## Remaining workflow operations (`src/backend/index.ts`) -/

/-- `GenerateEmailResult` from `src/backend/index.ts`. -/
structure GenerateEmailResult where
  success : Bool
  draftEmail : Option DraftEmail := none
  generatedEmail : Option AIGeneratedEmail := none
  error : Option String := none
  deriving Repr, DecidableEq

/-- The response of the AI generation collaborator
(`IAIService.generateEmail`): a success flag, the untrusted payload,
and an error message.  The payload is untyped (`JsonValue`) until it
passes `validateAIGeneratedEmail`. -/
structure AIResult where
  success : Bool
  data : Option JsonValue := none
  error : Option String := none

/-- JS `x || d` for an optional string: `undefined` and the empty
string are both falsy. -/
def jsOrStr (o : Option String) (d : String) : String :=
  match o with
  | some s => if s = "" then d else s
  | none => d

/-- JS `x || 0` for an optional number (for `riskScore`; `0 || 0 = 0`,
so `getD 0` is exact). -/
def jsOrZero (o : Option Int) : Int := o.getD 0

/-- `ReachOutWorkflow.initiateOutreach` (`src/backend/index.ts` lines
233-278): reject a profile missing id/email/name, otherwise create a
`WorkflowState` at stage `initial_research` and persist it (the mock
`saveWorkflowState` always succeeds). -/
def initiateOutreach (s : Store) (campaignId userId : String)
    (ngoProfile : NGOProfile) (freshId : String) (now : Int) :
    WorkflowInitResult × Store :=
  if ngoProfile.id = "" ∨ ngoProfile.email = "" ∨ ngoProfile.name = "" then
    ({ success := false,
       error := some "Invalid NGO profile: missing required fields" }, s)
  else
    let workflowState : WorkflowState :=
      { id := freshId
        campaignId := campaignId
        ngoId := ngoProfile.id
        stage := "initial_research"
        data := [("ngoProfile", .profile ngoProfile), ("initiatedAt", .num now)]
        createdAt := now
        updatedAt := now
        createdBy := userId }
    ({ success := true, workflowId := some freshId },
     { s with workflows := setMap s.workflows freshId workflowState })

/-- `ReachOutWorkflow.recordApproval` (`src/backend/index.ts` lines
470-498): validate the approval shape and persist it (the mock
`saveUserApproval` always succeeds). -/
def recordApproval (s : Store) (approval : UserApproval) :
    RecordApprovalResult × Store :=
  let validationResult := validateUserApproval approval
  if ¬ validationResult.valid then
    ({ success := false,
       error := some ("Approval validation failed: " ++
         formatValidationErrors validationResult.errors) }, s)
  else
    ({ success := true, approvalId := some approval.id },
     { s with approvals := setMap s.approvals approval.id approval })

/-- `ReachOutWorkflow.getAdvisoryRiskAssessment` (`src/backend/index.ts`
lines 507-533): pure read; `null` when the profile is absent,
otherwise an assessment with `advisoryOnly` hardcoded `true`. -/
def getAdvisoryRiskAssessment (s : Store) (ngoId : String) (now : Int) :
    Option RiskAssessment :=
  match s.ngoProfiles ngoId with
  | none => none
  | some ngoProfile =>
    some
      { ngoId := ngoId
        riskScore := jsOrZero ngoProfile.riskScore
        controversySummary :=
          jsOrStr ngoProfile.controversySummary "No known controversies"
        sources := []
        issueClusters := []
        advisoryOnly := true
        lastAssessedAt := now }

/-- `{...a, ...b}` on the workflow data bag: keys of `b` override keys
of `a`, keys of `a` keep their position otherwise. -/
def mergeBag (a b : List (String × BagValue)) : List (String × BagValue) :=
  (a.filter fun kv => ¬ b.any fun kv2 => kv2.1 = kv.1) ++ b

/-- `MockSupabaseService.updateWorkflowStage`: look up the state, set
the stage, merge the data bag, bump `updatedAt`, re-save.  When the
state is absent it returns a failure envelope and leaves the store
unchanged (the caller in `generateEmailDraft` ignores the result
either way). -/
def updateWorkflowStage (s : Store) (stateId newStage : String)
    (data : List (String × BagValue)) (now : Int) : Store :=
  match s.workflows stateId with
  | none => s
  | some state =>
    let state2 := { state with
      stage := newStage
      data := mergeBag state.data data
      updatedAt := now }
    { s with workflows := setMap s.workflows stateId state2 }

/-- `ReachOutWorkflow.generateEmailDraft` (`src/backend/index.ts` lines
286-374): load the workflow state and the NGO profile (failing with a
not-found result when absent; an unexpected stage only logs a
warning), take the AI collaborator's response (`aiResult`), validate
it with `validateAIGeneratedEmail`, construct the draft at status
`draft`, re-validate it with `validateDraftEmail`, persist it, and
advance the workflow stage to `draft_generation`. -/
def generateEmailDraft (s : Store) (workflowId : String)
    (aiResult : AIResult) (draftEmailId : String) (now : Int) :
    GenerateEmailResult × Store :=
  match s.workflows workflowId with
  | none =>
    ({ success := false, error := some ("Workflow not found: " ++ workflowId) }, s)
  | some workflow =>
    match s.ngoProfiles workflow.ngoId with
    | none =>
      ({ success := false,
         error := some ("NGO profile not found: " ++ workflow.ngoId) }, s)
    | some ngoProfile =>
      if ¬ aiResult.success then
        ({ success := false, error := aiResult.error }, s)
      else
        let validationResult := validateAIGeneratedEmail aiResult.data
        if ¬ validationResult.valid then
          ({ success := false,
             error := some ("AI output validation failed. Errors: " ++
               formatValidationErrors validationResult.errors) }, s)
        else
          match validationResult.data with
          | none =>
            -- unreachable: the validator always sets `data` when valid
            ({ success := false, error := some "AI output validation failed." }, s)
          | some generatedEmail =>
            let draftEmail : DraftEmail :=
              { id := draftEmailId
                campaignId := workflow.campaignId
                ngoId := workflow.ngoId
                status := "draft"
                subject := generatedEmail.subject
                body := generatedEmail.body
                recipientEmail := ngoProfile.email
                createdAt := now
                updatedAt := now }
            let draftValidation := validateDraftEmail draftEmail
            if ¬ draftValidation.valid then
              ({ success := false,
                 error := some ("Draft email validation failed: " ++
                   formatValidationErrors draftValidation.errors) }, s)
            else
              let s1 := { s with emails := setMap s.emails draftEmailId draftEmail }
              let s2 := updateWorkflowStage s1 workflowId "draft_generation"
                [("draftEmailId", .str draftEmailId), ("generatedAt", .num now)] now
              ({ success := true, draftEmail := some draftEmail,
                 generatedEmail := some generatedEmail }, s2)

/-! ## Brief processing output (`brief-processor.ts`) -/

/-- The `structure` sub-record of `ProcessedBrief`. -/
structure BriefStructureInfo where
  hasBulletPoints : Bool
  hasNumberedList : Bool
  hasMultipleParagraphs : Bool
  estimatedFormat : String
  deriving Repr, DecidableEq

/-- The `quality` sub-record of `ProcessedBrief`. -/
structure BriefQuality where
  score : Int
  issues : List String
  suggestions : List String
  deriving Repr, DecidableEq

/-- `ProcessedBrief` as declared and produced by
`BriefProcessor.processBrief` in `brief-processor.ts`.  Note: this
record has **no** `intent`, `entities` or `tone` fields — a fact the
search pipeline below depends on. -/
structure ProcessedBrief where
  originalText : String
  cleanedText : String
  sentences : List String
  paragraphs : List String
  wordCount : Nat
  structureInfo : BriefStructureInfo
  quality : BriefQuality
  deriving Repr, DecidableEq

/-! ## Analysis context expected by the enhanced scorer

`calculateEnhancedRelevanceScore` takes `processedBrief: any` and reads
`intent`, `entities` and `tone` from it.  These records describe the
fields those reads expect when they are present. -/

/-- The `intent` object the scorer dereferences
(`intent.primaryGoal`, `intent.scope`). -/
structure BriefIntentCtx where
  primaryGoal : String
  scope : String
  deriving Repr, DecidableEq

/-- The `entities` object the scorer dereferences
(`organizations`, `causes`, `activities`, `locations`). -/
structure BriefEntitiesCtx where
  organizations : List String
  locations : List String
  causes : List String
  activities : List String
  deriving Repr, DecidableEq

/-- The `tone` object the scorer dereferences
(`formality`, `sentiment`, `emotional_language`). -/
structure BriefToneCtx where
  sentiment : String
  formality : String
  emotional_language : Bool
  deriving Repr, DecidableEq

/-! ## Keyword extraction (`src/integrations/ngo-search.ts`) -/

/-- `isStopWord` (`ngo-search.ts` lines 1409-1455). -/
def isStopWord (word : String) : Bool :=
  strToLower word ∈
    ["the", "a", "an", "and", "or", "but", "in", "on", "at", "to",
     "for", "of", "with", "by", "help", "work", "support", "that",
     "this", "them", "they", "their", "are", "is", "be", "into",
     "should", "would", "could", "have", "has", "had", "was", "were",
     "been", "being", "get", "got", "will", "would", "could", "should"]

/-- The keyword lists of `extractDomainKeywords`
(`ngo-search.ts` lines 1457-1532), flattened in object order. -/
def domainKeywordTable : List String :=
  ["environment", "climate", "conservation", "sustainability", "green", "eco",
   "agriculture", "farming", "farmers", "regenerative", "organic", "soil", "crops",
   "marine", "ocean", "water", "aquatic", "fisheries", "coral", "coastal",
   "education", "teaching", "learning", "school", "students", "training",
   "health", "medical", "healthcare", "medicine", "patients", "wellness",
   "wildlife", "animals", "conservation", "habitat", "species", "biodiversity",
   "energy", "renewable", "solar", "wind", "clean", "power", "electricity"]

/-- `extractDomainKeywords`: every table keyword contained in the
lowercased text, in table order (duplicates possible, as in the
source). -/
def extractDomainKeywords (text : String) : List String :=
  domainKeywordTable.filter fun keyword => strIncludes (strToLower text) keyword

/-- The keyword list of `extractContextualKeywords`
(`ngo-search.ts` lines 1534-1572). -/
def contextualKeywordTable : List String :=
  ["partnership", "collaboration", "cooperation", "joint", "alliance",
   "funding", "grant", "investment", "donation", "support", "sponsorship",
   "volunteer", "internship", "training", "capacity", "building",
   "advocacy", "campaign", "policy", "rights", "justice", "equity",
   "research", "science", "innovation", "technology", "data",
   "community", "development", "social", "economic", "global"]

/-- `extractContextualKeywords`: table keywords contained in the
lowercased text. -/
def extractContextualKeywords (text : String) : List String :=
  contextualKeywordTable.filter fun keyword => strIncludes (strToLower text) keyword

/-- JS `Set` insertion-order semantics: deduplicate a list keeping the
first occurrence of each element. -/
def dedupFirst (l : List String) : List String :=
  go [] l
where
  /-- Walk the list keeping the elements not seen before. -/
  go (seen : List String) : List String → List String
  | [] => []
  | x :: rest => if x ∈ seen then go seen rest else x :: go (x :: seen) rest

/-- Words of a segment after `toLowerCase().split(/\s+/)` filtered to
length > 3 and not a stop word. -/
def segmentWords (segment : String) : List String :=
  ((splitWhitespace (strToLower segment)).filter
    fun word => word.length > 3 ∧ ¬ isStopWord word)

/-- `extractEnhancedKeywords` (`ngo-search.ts` lines 1038-1084):
sentence-level words, paragraph-level words, domain keywords and
contextual keywords, inserted into a `Set` in that order, then limited
to the first 12. -/
def extractEnhancedKeywords (cleanedText : String) (pb : ProcessedBrief) :
    List String :=
  let fromSentences := pb.sentences.flatMap segmentWords
  let fromParagraphs := pb.paragraphs.flatMap segmentWords
  let fromDomain := extractDomainKeywords cleanedText
  let fromContextual := extractContextualKeywords cleanedText
  (dedupFirst (fromSentences ++ fromParagraphs ++ fromDomain ++ fromContextual)).take 12

/-! ## Relevance-score signal functions (`src/integrations/ngo-search.ts`) -/

/-- `extractDomainMatches` (`ngo-search.ts` lines 1574-1592): +3 when
the text mentions the NGO name, +2 per focus area contained in the
text. -/
def extractDomainMatches (text : String) (ngo : NGOProfile) : Int :=
  let nameMatches : Int :=
    if strIncludes (strToLower text) (strToLower ngo.name) then 3 else 0
  let areaMatches : Int :=
    (ngo.focusAreas.getD []).foldl
      (fun acc area => if strIncludes (strToLower text) (strToLower area) then acc + 2 else acc) 0
  nameMatches + areaMatches

/-- `calculateGeographyMatch` (`ngo-search.ts` lines 1594-1623).
Faithful to the source, including its dead code: the final
country/region check iterates `geoTerms` with `Array.prototype.forEach`
whose callback executes `return 3` — but `forEach` discards callback
return values, so that loop can never produce a nonzero result and the
branch falls through to `return 0`. -/
def calculateGeographyMatch (text : String) (ngoGeography : Option String) : Int :=
  match ngoGeography with
  | none => 0
  | some geo =>
    let lowerText := strToLower text
    let lowerGeography := strToLower geo
    if (strIncludes lowerText "usa" || strIncludes lowerText "united states" ||
        strIncludes lowerText "america") &&
       (strIncludes lowerGeography "usa" || strIncludes lowerGeography "global") then
      5
    else if strIncludes lowerText "global" && strIncludes lowerGeography "global" then
      5
    else
      -- `geoTerms.forEach((term) => { if (lowerText.includes(term)) return 3; })`:
      -- the `return 3` exits only the callback and is discarded by `forEach`.
      0

/-- `calculateOrganizationTypeMatch` (`ngo-search.ts` lines 1625-1654):
size indicators and type indicators in the text (the `ngo` parameter is
unused in the source as well). -/
def calculateOrganizationTypeMatch (text : String) (_ngo : NGOProfile) : Int :=
  let lowerText := strToLower text
  let sizeScore : Int :=
    if strIncludes lowerText "small" || strIncludes lowerText "local" then 2
    else if strIncludes lowerText "large" || strIncludes lowerText "national" ||
        strIncludes lowerText "international" then 3
    else 0
  let typeScore : Int :=
    if strIncludes lowerText "foundation" || strIncludes lowerText "nonprofit" ||
        strIncludes lowerText "charity" then 2
    else 0
  sizeScore + typeScore

/-- `calculateIntentAlignment` (`ngo-search.ts` lines 1193-1257):
name/focus-area indicators per primary goal, capped at 5. -/
def calculateIntentAlignment (ngo : NGOProfile) (intent : BriefIntentCtx) : Int :=
  let ngoName := strToLower ngo.name
  let ngoFocus := strToLower (String.intercalate " " (ngo.focusAreas.getD []))
  let score : Int :=
    if intent.primaryGoal = "partnership" then
      (if strIncludes ngoName "alliance" || strIncludes ngoName "coalition" ||
          strIncludes ngoName "network" then 3 else 0) +
      (if strIncludes ngoFocus "partnership" || strIncludes ngoFocus "collaboration"
        then 2 else 0)
    else if intent.primaryGoal = "funding" then
      (if strIncludes ngoName "fund" || strIncludes ngoName "foundation"
        then 3 else 0) +
      (if strIncludes ngoFocus "funding" || strIncludes ngoFocus "grants"
        then 2 else 0)
    else if intent.primaryGoal = "volunteers" then
      (if strIncludes ngoFocus "volunteer" || strIncludes ngoFocus "community"
        then 3 else 0)
    else if intent.primaryGoal = "advocacy" then
      (if strIncludes ngoName "club" || strIncludes ngoName "society" ||
          strIncludes ngoName "defense" then 3 else 0) +
      (if strIncludes ngoFocus "advocacy" || strIncludes ngoFocus "policy"
        then 2 else 0)
    else if intent.primaryGoal = "research" then
      (if strIncludes ngoName "institute" || strIncludes ngoName "conservancy"
        then 3 else 0) +
      (if strIncludes ngoFocus "research" || strIncludes ngoFocus "science"
        then 2 else 0)
    else 0
  min score 5

/-- `calculateEntityMatches` (`ngo-search.ts` lines 1262-1292):
organization-name hits ×3, cause hits ×2, activity hits ×1, capped at
5. -/
def calculateEntityMatches (ngo : NGOProfile) (entities : BriefEntitiesCtx) : Int :=
  let ngoName := strToLower ngo.name
  let ngoFocus := strToLower (String.intercalate " " (ngo.focusAreas.getD []))
  let orgScore := entities.organizations.foldl
    (fun acc org => if strIncludes ngoName (strToLower org) then acc + 3 else acc)
    (0 : Int)
  let causeScore := entities.causes.foldl
    (fun acc cause => if strIncludes ngoFocus (strToLower cause) then acc + 2 else acc)
    orgScore
  let activityScore := entities.activities.foldl
    (fun acc activity => if strIncludes ngoFocus (strToLower activity) then acc + 1 else acc)
    causeScore
  min activityScore 5

/-- `calculateToneCompatibility` (`ngo-search.ts` lines 1297-1336):
base score 2, formal-organization / advocacy / research adjustments,
clamped to `[0, 5]`. -/
def calculateToneCompatibility (ngo : NGOProfile) (tone : BriefToneCtx) : Int :=
  let ngoName := strToLower ngo.name
  let ngoFocus := strToLower (String.intercalate " " (ngo.focusAreas.getD []))
  let base : Int := 2
  let afterFormal :=
    if strIncludes ngoName "institute" || strIncludes ngoName "foundation" ||
        strIncludes ngoName "society" then
      if tone.formality = "formal" then base + 2
      else if tone.formality = "casual" then base - 1
      else base
    else base
  let afterAdvocacy :=
    if strIncludes ngoFocus "advocacy" || strIncludes ngoFocus "campaign" then
      if tone.emotional_language then afterFormal + 1 else afterFormal
    else afterFormal
  let afterResearch :=
    if strIncludes ngoFocus "research" || strIncludes ngoFocus "science" then
      if tone.sentiment = "neutral" then afterAdvocacy + 2
      else if tone.sentiment = "negative" then afterAdvocacy - 1
      else afterAdvocacy
    else afterAdvocacy
  max 0 (min afterResearch 5)

/-- `calculateGeographicEntityFit` (`ngo-search.ts` lines 1341-1369):
default 1 with no location entities, otherwise per-location bonuses
capped at 5. -/
def calculateGeographicEntityFit (ngo : NGOProfile) (locations : List String) : Int :=
  if locations.isEmpty then 1
  else
    let ngoGeography := strToLower (ngo.geography.getD "")
    let score := locations.foldl
      (fun acc location =>
        let loc := strToLower location
        if strIncludes ngoGeography "global" &&
            (strIncludes loc "global" || strIncludes loc "world") then acc + 3
        else if strIncludes ngoGeography "usa" &&
            (strIncludes loc "usa" || strIncludes loc "america") then acc + 3
        else if strIncludes (strToLower ngoGeography) loc then acc + 2
        else acc)
      (0 : Int)
    min score 5

/-- `calculateScopeAlignment` (`ngo-search.ts` lines 1374-1405): a
lookup keyed on the detected scope against geography keywords. -/
def calculateScopeAlignment (ngo : NGOProfile) (scope : String) : Int :=
  let ngoGeography := strToLower (ngo.geography.getD "")
  if scope = "global" then
    if strIncludes ngoGeography "global" then 5
    else if strIncludes ngoGeography "international" then 4
    else 2
  else if scope = "national" then
    if strIncludes ngoGeography "usa" || strIncludes ngoGeography "country" then 5
    else if strIncludes ngoGeography "national" then 4
    else 2
  else if scope = "regional" then
    if strIncludes ngoGeography "regional" || strIncludes ngoGeography "state" then 5
    else 3
  else if scope = "local" then
    if strIncludes ngoGeography "local" || strIncludes ngoGeography "community" then 5
    else 2
  else 3

/-! ## The enhanced relevance score and `searchNGOs`
(`src/integrations/ngo-search.ts`) -/

/-- The message of the `TypeError` raised by a property access on
`undefined` (the exact runtime message also names the property; only
the error class matters here). -/
def typeErrorUndefined : String := "TypeError: Cannot read properties of undefined"

/-- `calculateToneCompatibility` as invoked dynamically: when the
`tone` argument is `undefined` the function still returns its base
score unless one of the guarded branches dereferences `tone`, in which
case a `TypeError` is raised. -/
def toneCompatibilityDyn (ngo : NGOProfile) (toneOpt : Option BriefToneCtx) :
    Except String Int :=
  match toneOpt with
  | some tone => .ok (calculateToneCompatibility ngo tone)
  | none =>
    let ngoName := strToLower ngo.name
    let ngoFocus := strToLower (String.intercalate " " (ngo.focusAreas.getD []))
    if strIncludes ngoName "institute" || strIncludes ngoName "foundation" ||
        strIncludes ngoName "society" then .error typeErrorUndefined
    else if strIncludes ngoFocus "advocacy" || strIncludes ngoFocus "campaign" then
      .error typeErrorUndefined
    else if strIncludes ngoFocus "research" || strIncludes ngoFocus "science" then
      .error typeErrorUndefined
    else .ok 2

/-- `calculateEnhancedRelevanceScore` (`ngo-search.ts` lines
1109-1171).  The `processedBrief: any` argument is flattened into its
`cleanedText` together with the three analysis objects the function
dereferences (`intent`, `entities`, `tone`), each `Option` because the
source reads them from an untyped value.  Phase 1 (focus areas, domain
terms, geography, organization type) is pure; phase 2 dereferences the
analysis objects and raises a `TypeError` when they are `undefined`,
exactly where the source would. -/
def calculateEnhancedRelevanceScore (ngo : NGOProfile) (cleanedTextRaw : String)
    (intentOpt : Option BriefIntentCtx) (entitiesOpt : Option BriefEntitiesCtx)
    (toneOpt : Option BriefToneCtx) (keywords : List String) :
    Except String Int :=
  let cleanedText := strToLower cleanedTextRaw
  let ngoFocusAreas :=
    String.intercalate " " ((ngo.focusAreas.getD []).map strToLower)
  let focusAreaMatches := keywords.filter fun keyword =>
    strIncludes ngoFocusAreas (strToLower keyword)
  let domainMatches := extractDomainMatches cleanedText ngo
  let geographyScore := calculateGeographyMatch cleanedText ngo.geography
  let orgTypeScore := calculateOrganizationTypeMatch cleanedText ngo
  let phase1 : Int := (focusAreaMatches.length : Int) * 20 + domainMatches * 15 +
    geographyScore * 10 + orgTypeScore * 5
  -- Phase 2: `calculateIntentAlignment(ngo, processedBrief.intent)` reads
  -- `intent.primaryGoal` and throws when `intent` is undefined.
  match intentOpt with
  | none => .error typeErrorUndefined
  | some intent =>
    let intentScore := calculateIntentAlignment ngo intent
    -- `calculateEntityMatches` reads `entities.organizations` unconditionally.
    match entitiesOpt with
    | none => .error typeErrorUndefined
    | some entities =>
      let entityScore := calculateEntityMatches ngo entities
      match toneCompatibilityDyn ngo toneOpt with
      | .error e => .error e
      | .ok toneScore =>
        let geoEntityScore := calculateGeographicEntityFit ngo entities.locations
        let scopeScore := calculateScopeAlignment ngo intent.scope
        .ok (phase1 + intentScore * 20 + entityScore * 15 + toneScore * 10 +
          geoEntityScore * 10 + scopeScore * 5)

/-- The filter/sort stage of `searchNGOs` (`ngo-search.ts` lines
1008-1010): keep the entries with `score > 0` and sort them by score
descending.  JS `Array.prototype.sort` is stable (ES2019), which
`List.mergeSort` models. -/
def sortedScoredNGOs (scoredNGOs : List (NGOProfile × Int)) :
    List (NGOProfile × Int) :=
  (scoredNGOs.filter fun item => decide (0 < item.2)).mergeSort
    fun a b => decide (b.2 ≤ a.2)

/-- The ranking stage of `searchNGOs` (`ngo-search.ts` lines
1008-1012): filter to positive scores, stable-sort descending, take
the first 12, and stamp each profile with
`selectedForOutreach: false`. -/
def rankNGOs (scoredNGOs : List (NGOProfile × Int)) : List NGOProfile :=
  ((sortedScoredNGOs scoredNGOs).take 12).map
    fun item => { item.1 with selectedForOutreach := false }

/-- `searchNGOs` (`ngo-search.ts` lines 949-1018).  `pb` stands for
`await briefProcessor.processBrief(brief)` (a pure function of the
brief) and `db` for the static `LOCAL_NGO_DATABASE` registry.  The
scorer receives `processedBrief.intent`, `.entities` and `.tone`;
`ProcessedBrief` (brief-processor.ts) has no such fields, so those
arguments are `undefined` (`none`) at runtime, and scoring any entry
raises a `TypeError`. -/
def searchNGOs (brief : String) (pb : ProcessedBrief) (db : List NGOProfile) :
    Except String (List NGOProfile) :=
  if jsTrim brief = "" then .ok []
  else
    let keywords := extractEnhancedKeywords pb.cleanedText pb
    match db.mapM (fun ngo =>
      (calculateEnhancedRelevanceScore ngo pb.cleanedText none none none
        keywords).map fun score => (ngo, score)) with
    | .error e => .error e
    | .ok scoredNGOs => .ok (rankNGOs scoredNGOs)

/-! ## Sentiment analysis (`src/integrations/tone-analyzer.ts`) -/

/-- The positive lexicon of `ToneAnalyzer.analyzeSentiment`. -/
def positiveWords : List String :=
  ["excited", "happy", "pleased", "thrilled", "delighted", "grateful",
   "optimistic", "hopeful", "confident", "proud", "satisfied",
   "amazing", "excellent", "great", "wonderful", "fantastic",
   "good", "better", "best", "perfect", "successful", "effective",
   "opportunity", "potential", "progress", "achievement", "impact"]

/-- The negative lexicon of `ToneAnalyzer.analyzeSentiment`. -/
def negativeWords : List String :=
  ["frustrated", "disappointed", "concerned", "worried", "anxious",
   "urgent", "crisis", "emergency", "problem", "issue", "challenge",
   "difficult", "hard", "struggle", "fail", "failure", "poor",
   "bad", "terrible", "awful", "horrible", "disaster", "critical",
   "desperate", "need", "require", "lack", "missing", "insufficient"]

/-- JS `\w` (regex word character): ASCII letter, digit or
underscore. -/
def isWordChar (c : Char) : Bool :=
  c.isAlpha || c.isDigit || c = '_'

/-- Word-boundary check on the character preceding a candidate match
(`none` = start of string). -/
def boundaryBefore : Option Char → Bool
  | none => true
  | some c => !isWordChar c

/-- The number of matches of the regex `\bw\b` (global flag) in a
character list: positions where `w` occurs flanked by word boundaries.
For an alphabetic `w`, such occurrences cannot overlap, so counting
positions equals counting regex matches. -/
def countWordHits (w : List Char) (text : List Char) : Nat :=
  go none text
where
  /-- Scan every start position, remembering the previous character. -/
  go : Option Char → List Char → Nat
  | _, [] => 0
  | prev, c :: rest =>
    let here := boundaryBefore prev && w.isPrefixOf (c :: rest) &&
      (match (c :: rest).drop w.length with
       | [] => true
       | d :: _ => !isWordChar d)
    (if here then 1 else 0) + go (some c) rest

/-- Total whole-word hit count of a lexicon in the (already
lowercased) text: the `forEach` accumulation of
`ToneAnalyzer.analyzeSentiment`. -/
def lexiconHits (lexicon : List String) (lowerText : String) : Nat :=
  lexicon.foldl (fun acc word => acc + countWordHits word.data lowerText.data) 0

/-- `ToneAnalyzer.analyzeSentiment` (`tone-analyzer.ts` lines 46-86):
count whole-word positive and negative lexicon hits on the lowercased
text; positive wins when its count exceeds 1.5× the negative count,
negative symmetrically, otherwise neutral. -/
def analyzeSentiment (text : String) : String :=
  let lowerText := strToLower text
  let positiveScore := lexiconHits positiveWords lowerText
  let negativeScore := lexiconHits negativeWords lowerText
  if (positiveScore : Rat) > (negativeScore : Rat) * 1.5 then "positive"
  else if (negativeScore : Rat) > (positiveScore : Rat) * 1.5 then "negative"
  else "neutral"

/-! ## Claim-level predicates -/

/-- A matching, non-expired `UserApproval` for `emailId` exists in the
persistence store at time `now` (the condition of the spec's
no-send-without-stored-approval invariant). -/
def matchingApprovalInStore (s : Store) (emailId : String) (now : Int) : Prop :=
  ∃ k approval, s.approvals k = some approval ∧
    approval.resourceType = "email" ∧ approval.resourceId = emailId ∧
    approval.approvedAt ≤ now ∧ ∀ e, approval.expiresAt = some e → now ≤ e

/-- The generation-collaborator outputs covered by the schema-gate
claim: a required field is missing (including any non-object payload),
the tone is present but not a member of the tone enum, or the
confidence is a number outside `[0, 1]`. -/
def aiOutputBroken (d : JsonValue) : Prop :=
  (∃ f ∈ aiRequiredFields, jsonField (some d) f = none) ∨
  (∃ t, jsonField (some d) "tone" = some t ∧
    ∀ str, t = JsonValue.jstr str → str ∉ aiToneEnum) ∨
  (∃ c, jsonField (some d) "confidence" = some (.jnum c) ∧ (c < 0 ∨ 1 < c))

/-! ## Concrete sample data (used by witnesses and counterexamples) -/

/-- A draft email at status `draft`. -/
def sampleDraft : DraftEmail :=
  { id := "email-1", campaignId := "campaign-1", ngoId := "ngo-1",
    status := "draft", subject := "Partnership opportunity",
    body := "Hello", recipientEmail := "contact@example.org" }

/-- A well-formed matching approval for `sampleDraft`. -/
def sampleApproval : UserApproval :=
  { id := "approval-1", resourceType := "email", resourceId := "email-1",
    approvedBy := "user-1", approvalText := "Looks good, send it.",
    approvedAt := 100 }

/-- An approval whose `resourceId` does not match `sampleDraft`. -/
def sampleBadApproval : UserApproval :=
  { sampleApproval with resourceId := "email-2" }

/-- A store holding only `sampleDraft`; in particular its `approvals`
map is empty. -/
def sampleStore : Store :=
  { emptyStore with emails := setMap emptyStore.emails "email-1" sampleDraft }

/-- A valid NGO profile. -/
def sampleNGO : NGOProfile :=
  { id := "ngo-1", name := "Ocean Alliance", email := "hello@ocean.org",
    domain := "ocean.org", riskScore := some 15,
    selectedForOutreach := false }

/-- A workflow state at stage `initial_research` for `sampleNGO`. -/
def sampleWorkflow : WorkflowState :=
  { id := "workflow-1", campaignId := "campaign-1", ngoId := "ngo-1",
    stage := "initial_research", data := [], createdAt := 0, updatedAt := 0,
    createdBy := "user-1" }

/-- A store holding `sampleWorkflow` and `sampleNGO`. -/
def workflowStore : Store :=
  { sampleStore with
    workflows := setMap sampleStore.workflows "workflow-1" sampleWorkflow,
    ngoProfiles := setMap sampleStore.ngoProfiles "ngo-1" sampleNGO }

/-- A generation response whose payload is missing the required
`subject` field. -/
def badAIResult : AIResult :=
  { success := true, data := some (.jobj [("body", .jstr "Hello")]) }

/-- A mail transport that reports success and leaves the persistence
store untouched (unlike the mock, it does not re-save the draft). -/
def pureMailTransport : EmailTransport where
  send := fun _ _ st => ({ success := true, messageId := some "message-1" }, st)

/-- The run of `sendEmailWithApproval` used by the C1 counterexample:
the store contains no approval records at all, yet a well-formed
approval object is passed directly to the call. -/
def c1Run : SendEmailResult × Store × Nat :=
  sendEmailWithApproval (mockEmailService 200 "uuid-1") 200 sampleStore
    "email-1" sampleApproval

/-- Registry entry `ngo-001` of `LOCAL_NGO_DATABASE`, verbatim. -/
def arcProfile : NGOProfile :=
  { id := "ngo-001"
    name := "Accelerated Restoration Collaborative (ARC)"
    email := "info@acceleratedrestoration.org"
    domain := "acceleratedrestoration.org"
    geography := some "Global"
    focusAreas := some ["ecosystem restoration", "climate resilience",
      "biodiversity conservation"]
    fitRationale := some "Collaborative network focused on accelerating ecosystem restoration and climate adaptation projects"
    partnerStatus := some "potential"
    riskScore := some 2
    controversySummary := some "Emerging collaborative organization with positive reputation in restoration community"
    selectedForOutreach := false }

/-- The happy-path brief of the spec's walkthrough scenario. -/
def caribbeanBrief : String :=
  "We are launching a coral reef restoration initiative in the Caribbean and seek partners in marine conservation."

/-- A `ProcessedBrief` for `caribbeanBrief` of the shape
`BriefProcessor.processBrief` produces (cleaning is the identity on
this already-clean text). -/
def caribbeanProcessedBrief : ProcessedBrief :=
  { originalText := caribbeanBrief
    cleanedText := caribbeanBrief
    sentences := [caribbeanBrief]
    paragraphs := []
    wordCount := 18
    structureInfo :=
      { hasBulletPoints := false, hasNumberedList := false,
        hasMultipleParagraphs := false, estimatedFormat := "unknown" }
    quality := { score := 75, issues := [], suggestions := [] } }

/-! ## Helper lemmas -/

/-- If the generation payload is broken in one of the claimed ways, the
error list accumulated by `validateAIGeneratedEmail` is nonempty. -/
theorem aiValidationErrorList_ne_nil {d : JsonValue}
    {fs : List (String × JsonValue)} (hf : fieldsOf (some d) = some fs)
    (hbroken : aiOutputBroken d) : aiValidationErrorList fs ≠ [] := by
  have hfield : ∀ f, jsonField (some d) f = jsonLookup fs f := by
    intro f
    simp [jsonField, hf]
  unfold aiValidationErrorList
  simp only [ne_eq, List.append_eq_nil]
  intro hall
  rcases hbroken with ⟨f, hfmem, hnone⟩ | ⟨t, ht, htb⟩ | ⟨c, hc, hcr⟩
  · have hm := hall.1.1.1.1.1.1.1
    unfold aiMissingErrors at hm
    rw [List.filterMap_eq_nil_iff] at hm
    have hf2 := hm f hfmem
    rw [← hfield f, hnone] at hf2
    simp at hf2
  · have htone := hall.1.1.1.1.2
    rw [hfield] at ht
    cases t with
    | jstr str =>
      simp only [aiToneErrors, ht] at htone
      by_cases hmem : str ∈ aiToneEnum
      · exact htb str rfl hmem
      · rw [if_neg hmem] at htone
        cases htone
    | jnull => simp [aiToneErrors, ht] at htone
    | jbool b => simp [aiToneErrors, ht] at htone
    | jnum q => simp [aiToneErrors, ht] at htone
    | jarr items => simp [aiToneErrors, ht] at htone
    | jobj fields => simp [aiToneErrors, ht] at htone
  · have hconf := hall.1.2
    rw [hfield] at hc
    simp only [aiConfidenceErrors, hc] at hconf
    rw [if_pos hcr] at hconf
    cases hconf

/-- Filtering by a predicate whose satisfying elements are mutually
`le`-comparable commutes with `mergeSort`: the stable sort keeps every
equivalence class of the sort key in input order. -/
theorem mergeSort_filter_of_const {α : Type} (le : α → α → Bool)
    (htrans : ∀ a b c, le a b → le b c → le a c)
    (htotal : ∀ a b, le a b || le b a)
    (p : α → Bool) (hp : ∀ a b, p a → p b → le a b)
    (l : List α) : (l.mergeSort le).filter p = l.filter p := by
  have hself : (l.filter p).filter p = l.filter p := by
    rw [List.filter_eq_self]
    intro a ha
    exact List.of_mem_filter ha
  have hsub : List.Sublist (l.filter p) (l.mergeSort le) := by
    apply List.sublist_mergeSort htrans htotal
    · apply List.pairwise_of_forall_mem_list
      intro a ha b hb
      exact hp a b (List.of_mem_filter ha) (List.of_mem_filter hb)
    · exact List.filter_sublist l
  have hsub2 : List.Sublist (l.filter p) ((l.mergeSort le).filter p) := by
    have h := hsub.filter p
    rwa [hself] at h
  have hlen : (l.filter p).length = ((l.mergeSort le).filter p).length :=
    (((List.mergeSort_perm l le).filter p).length_eq).symm
  exact (hsub2.eq_of_length hlen).symm

/-! ## Claim theorems -/

/-- C1 (counterexample): a run of `sendEmailWithApproval` against a
store containing **no** approval records, with a well-formed approval
object passed directly as the argument, dispatches the mail transport
once, succeeds, and leaves the stored draft at status `sent` — so a
send can complete without any matching `UserApproval` existing in the
persistence store, refuting part (a) of the claimed invariant. -/
theorem c1_counterexample :
    c1Run.1.success = true ∧
    c1Run.2.2 = 1 ∧
    (c1Run.2.1.emails "email-1").map DraftEmail.status = some "sent" ∧
    ¬ matchingApprovalInStore sampleStore "email-1" 200 := by
  refine ⟨by decide, by decide, by decide, ?_⟩
  rintro ⟨k, approval, h, -⟩
  simp [sampleStore, emptyStore] at h

/-- C1 (amended): if a run of `sendEmailWithApproval` invokes the mail
transport (dispatch count 1), then at the moment the send began the
**supplied** approval argument was a matching, non-expired approval
(nonempty id, resourceType `email`, resourceId equal to the email id,
not future-dated, not expired), and the idempotency key for the send
was absent from the store or present but uncompleted. -/
theorem c1_sent_requires_valid_supplied_approval (t : EmailTransport)
    (now : Int) (s : Store) (emailId : String) (approval : UserApproval)
    (hdispatch : (sendEmailWithApproval t now s emailId approval).2.2 = 1) :
    approval.id ≠ "" ∧ approval.resourceType = "email" ∧
    approval.resourceId = emailId ∧ approval.approvedAt ≤ now ∧
    (∀ e, approval.expiresAt = some e → now ≤ e) ∧
    (∀ k, s.idempotencyKeys ("email-send-" ++ emailId) = some k →
      k.completedAt = none) := by
  unfold sendEmailWithApproval at hdispatch
  split at hdispatch
  · simp at hdispatch
  · split at hdispatch
    · simp at hdispatch
    · split at hdispatch
      · simp at hdispatch
      · split at hdispatch
        · simp at hdispatch
        · split at hdispatch
          · simp at hdispatch
          · rename_i hmail h1 h2 h3 h4
            push_neg at h2
            refine ⟨h2.1, h2.2.1, h2.2.2, by omega, ?_, ?_⟩
            · intro e he
              rw [he] at h4
              simp [Option.any] at h4
              omega
            · intro k hk
              simp only [hk] at hdispatch
              split at hdispatch
              · simp at hdispatch
              · rename_i h5
                exact Option.not_isSome_iff_eq_none.mp h5

/-- C1 (witness): the amended theorem applied to the concrete
counterexample run. -/
theorem c1_amended_witness :
    (sendEmailWithApproval (mockEmailService 200 "uuid-1") 200 sampleStore
      "email-1" sampleApproval).2.2 = 1 ∧
    (sampleApproval.id ≠ "" ∧ sampleApproval.resourceType = "email" ∧
     sampleApproval.resourceId = "email-1" ∧ sampleApproval.approvedAt ≤ 200 ∧
     (∀ e, sampleApproval.expiresAt = some e → (200 : Int) ≤ e) ∧
     (∀ k, sampleStore.idempotencyKeys ("email-send-" ++ "email-1") = some k →
       k.completedAt = none)) :=
  ⟨by decide,
   c1_sent_requires_valid_supplied_approval (mockEmailService 200 "uuid-1") 200
     sampleStore "email-1" sampleApproval (by decide)⟩

/-- C2: for a stored, not-yet-sent draft, calling
`sendEmailWithApproval` with an approval whose id is empty, whose
resourceType is not `email`, whose resourceId differs from the email
id, whose approvedAt is in the future, or whose expiresAt has passed,
returns a non-throwing failure result naming the failed check, never
invokes the mail transport, and leaves the store (hence the stored
draft) unchanged. -/
theorem c2_invalid_approval_rejected (t : EmailTransport) (now : Int)
    (s : Store) (emailId : String) (approval : UserApproval) (d : DraftEmail)
    (hmail : s.emails emailId = some d) (hstatus : d.status ≠ "sent")
    (hbad : approval.id = "" ∨ approval.resourceType ≠ "email" ∨
        approval.resourceId ≠ emailId ∨ now < approval.approvedAt ∨
        ∃ e, approval.expiresAt = some e ∧ e < now) :
    (sendEmailWithApproval t now s emailId approval).1.success = false ∧
    ((sendEmailWithApproval t now s emailId approval).1.error =
        some "Invalid approval for this email" ∨
     (sendEmailWithApproval t now s emailId approval).1.error =
        some "Approval is not yet valid" ∨
     (sendEmailWithApproval t now s emailId approval).1.error =
        some "Approval has expired") ∧
    (sendEmailWithApproval t now s emailId approval).2.2 = 0 ∧
    (sendEmailWithApproval t now s emailId approval).2.1 = s ∧
    (sendEmailWithApproval t now s emailId approval).2.1.emails emailId = some d := by
  unfold sendEmailWithApproval
  simp only [hmail]
  rw [if_neg hstatus]
  by_cases h2 : approval.id = "" ∨ approval.resourceType ≠ "email" ∨
      approval.resourceId ≠ emailId
  · rw [if_pos h2]
    exact ⟨rfl, Or.inl rfl, rfl, rfl, hmail⟩
  · rw [if_neg h2]
    by_cases h3 : approval.approvedAt > now
    · rw [if_pos h3]
      exact ⟨rfl, Or.inr (Or.inl rfl), rfl, rfl, hmail⟩
    · rw [if_neg h3]
      have h4 : approval.expiresAt.any (fun e => decide (now > e)) = true := by
        rcases hbad with h | h | h | h | ⟨e, he, hlt⟩
        · exact absurd (Or.inl h) h2
        · exact absurd (Or.inr (Or.inl h)) h2
        · exact absurd (Or.inr (Or.inr h)) h2
        · omega
        · rw [he]
          simp [Option.any]
          omega
      rw [if_pos h4]
      exact ⟨rfl, Or.inr (Or.inr rfl), rfl, rfl, hmail⟩

/-- C2 (witness): rejection of a mismatched-resourceId approval on the
concrete sample store. -/
theorem c2_witness :
    (sampleStore.emails "email-1" = some sampleDraft ∧
     sampleDraft.status ≠ "sent" ∧
     sampleBadApproval.resourceId ≠ "email-1") ∧
    ((sendEmailWithApproval pureMailTransport 200 sampleStore "email-1"
        sampleBadApproval).1.success = false ∧
     ((sendEmailWithApproval pureMailTransport 200 sampleStore "email-1"
         sampleBadApproval).1.error = some "Invalid approval for this email" ∨
      (sendEmailWithApproval pureMailTransport 200 sampleStore "email-1"
         sampleBadApproval).1.error = some "Approval is not yet valid" ∨
      (sendEmailWithApproval pureMailTransport 200 sampleStore "email-1"
         sampleBadApproval).1.error = some "Approval has expired") ∧
     (sendEmailWithApproval pureMailTransport 200 sampleStore "email-1"
        sampleBadApproval).2.2 = 0 ∧
     (sendEmailWithApproval pureMailTransport 200 sampleStore "email-1"
        sampleBadApproval).2.1 = sampleStore ∧
     (sendEmailWithApproval pureMailTransport 200 sampleStore "email-1"
        sampleBadApproval).2.1.emails "email-1" = some sampleDraft) :=
  ⟨⟨rfl, by decide, by decide⟩,
   c2_invalid_approval_rejected pureMailTransport 200 sampleStore "email-1"
     sampleBadApproval sampleDraft rfl (by decide)
     (Or.inr (Or.inr (Or.inl (by decide))))⟩

/-- C3: for a stored draft (keyed by its own id) with a valid matching
approval and no completed idempotency key, calling
`sendEmailWithApproval` twice in sequence against the mock mail
transport succeeds both times, dispatches the transport exactly once
across the two calls, and the second call's message indicates the
email was already sent. -/
theorem c3_idempotent_double_send (now1 now2 : Int) (fresh1 fresh2 : String)
    (s : Store) (emailId : String) (approval : UserApproval) (d : DraftEmail)
    (hmail : s.emails emailId = some d)
    (hid : d.id = emailId)
    (hstatus : d.status ≠ "sent")
    (ha1 : approval.id ≠ "") (ha2 : approval.resourceType = "email")
    (ha3 : approval.resourceId = emailId)
    (ha4 : approval.approvedAt ≤ now1)
    (ha5 : ∀ e, approval.expiresAt = some e → now1 ≤ e)
    (hkey : ∀ k, s.idempotencyKeys ("email-send-" ++ emailId) = some k →
        k.completedAt = none) :
    (sendEmailWithApproval (mockEmailService now1 fresh1) now1 s emailId
        approval).1.success = true ∧
    (sendEmailWithApproval (mockEmailService now2 fresh2) now2
        (sendEmailWithApproval (mockEmailService now1 fresh1) now1 s emailId
          approval).2.1 emailId approval).1.success = true ∧
    (sendEmailWithApproval (mockEmailService now1 fresh1) now1 s emailId
        approval).2.2 +
      (sendEmailWithApproval (mockEmailService now2 fresh2) now2
        (sendEmailWithApproval (mockEmailService now1 fresh1) now1 s emailId
          approval).2.1 emailId approval).2.2 = 1 ∧
    (sendEmailWithApproval (mockEmailService now2 fresh2) now2
        (sendEmailWithApproval (mockEmailService now1 fresh1) now1 s emailId
          approval).2.1 emailId approval).1.message =
      some "Email already sent" := by
  have hval : ¬ (approval.id = "" ∨ approval.resourceType ≠ "email" ∨
      approval.resourceId ≠ emailId) := by
    push_neg
    exact ⟨ha1, ha2, ha3⟩
  have h3 : ¬ approval.approvedAt > now1 := by omega
  have h4 : ¬ approval.expiresAt.any (fun e => decide (now1 > e)) = true := by
    cases hexp : approval.expiresAt with
    | none => simp [Option.any]
    | some e =>
      have := ha5 e hexp
      simp [Option.any]
      omega
  have hfirst : sendEmailWithApproval (mockEmailService now1 fresh1) now1 s
      emailId approval =
      ({ success := true, emailId := some emailId,
         messageId := some ("mock-msg-" ++ fresh1), sentAt := some now1 },
       { s with
         sentEmails := setMap s.sentEmails fresh1 (mockSendResult now1 fresh1),
         emails := setMap s.emails d.id (markSent d now1),
         idempotencyKeys := setMap s.idempotencyKeys ("email-send-" ++ emailId)
           (completedSendKey emailId now1 (mockSendResult now1 fresh1)) },
       1) := by
    unfold sendEmailWithApproval
    simp only [hmail]
    rw [if_neg hstatus, if_neg hval, if_neg h3, if_neg h4]
    cases hkey0 : s.idempotencyKeys ("email-send-" ++ emailId) with
    | none =>
      simp only [hkey0]
      unfold sendEmailWithApproval.sendEmailDispatch
      simp [mockEmailService, mockSendResult]
    | some ek =>
      have hck := hkey ek hkey0
      simp only [hkey0, hck]
      unfold sendEmailWithApproval.sendEmailDispatch
      simp [mockEmailService, mockSendResult]
  rw [hfirst]
  have hsecondmail : (setMap s.emails d.id (markSent d now1)) emailId =
      some (markSent d now1) := by
    simp [setMap, hid]
  have hsent : (markSent d now1).status = "sent" := rfl
  refine ⟨rfl, ?_, ?_, ?_⟩
  · unfold sendEmailWithApproval
    simp only [hsecondmail]
    rw [if_pos hsent]
  · unfold sendEmailWithApproval
    simp only [hsecondmail]
    rw [if_pos hsent]
    rfl
  · unfold sendEmailWithApproval
    simp only [hsecondmail]
    rw [if_pos hsent]

/-- C3 (witness): the double send on the concrete sample store. -/
theorem c3_witness :
    (sampleStore.emails "email-1" = some sampleDraft ∧
     sampleDraft.id = "email-1" ∧ sampleDraft.status ≠ "sent" ∧
     sampleApproval.id ≠ "" ∧ sampleApproval.resourceType = "email" ∧
     sampleApproval.resourceId = "email-1" ∧
     sampleApproval.approvedAt ≤ 200) ∧
    ((sendEmailWithApproval (mockEmailService 200 "uuid-1") 200 sampleStore
        "email-1" sampleApproval).1.success = true ∧
     (sendEmailWithApproval (mockEmailService 300 "uuid-2") 300
        (sendEmailWithApproval (mockEmailService 200 "uuid-1") 200 sampleStore
          "email-1" sampleApproval).2.1 "email-1" sampleApproval).1.success = true ∧
     (sendEmailWithApproval (mockEmailService 200 "uuid-1") 200 sampleStore
        "email-1" sampleApproval).2.2 +
       (sendEmailWithApproval (mockEmailService 300 "uuid-2") 300
        (sendEmailWithApproval (mockEmailService 200 "uuid-1") 200 sampleStore
          "email-1" sampleApproval).2.1 "email-1" sampleApproval).2.2 = 1 ∧
     (sendEmailWithApproval (mockEmailService 300 "uuid-2") 300
        (sendEmailWithApproval (mockEmailService 200 "uuid-1") 200 sampleStore
          "email-1" sampleApproval).2.1 "email-1" sampleApproval).1.message =
       some "Email already sent") :=
  ⟨⟨rfl, by decide, by decide, by decide, by decide, by decide, by decide⟩,
   c3_idempotent_double_send 200 300 "uuid-1" "uuid-2" sampleStore "email-1"
     sampleApproval sampleDraft rfl (by decide) (by decide) (by decide)
     (by decide) (by decide) (by decide)
     (fun e he => by cases he)
     (fun k hk => by cases hk)⟩

/-- C4: when the generation collaborator reports success but its
payload is missing a required field, has a tone outside the enum, or
has a confidence outside `[0, 1]`, `generateEmailDraft` returns a
failure carrying the field-level validation errors of
`validateAIGeneratedEmail` and leaves the store unchanged — no
`DraftEmail` is persisted. -/
theorem c4_schema_gate (s : Store) (workflowId : String) (aiResult : AIResult)
    (draftEmailId : String) (now : Int) (workflow : WorkflowState)
    (ngoProfile : NGOProfile) (d : JsonValue)
    (hwf : s.workflows workflowId = some workflow)
    (hngo : s.ngoProfiles workflow.ngoId = some ngoProfile)
    (hai : aiResult.success = true)
    (hdata : aiResult.data = some d)
    (hbroken : aiOutputBroken d) :
    (generateEmailDraft s workflowId aiResult draftEmailId now).1.success = false ∧
    (generateEmailDraft s workflowId aiResult draftEmailId now).1.error =
      some ("AI output validation failed. Errors: " ++
        formatValidationErrors (validateAIGeneratedEmail aiResult.data).errors) ∧
    (validateAIGeneratedEmail aiResult.data).errors ≠ [] ∧
    (generateEmailDraft s workflowId aiResult draftEmailId now).2 = s := by
  have hinvalid : (validateAIGeneratedEmail (some d)).valid = false ∧
      (validateAIGeneratedEmail (some d)).errors ≠ [] := by
    unfold validateAIGeneratedEmail
    cases hf : fieldsOf (some d) with
    | none => exact ⟨rfl, by simp⟩
    | some fs =>
      have hne := aiValidationErrorList_ne_nil hf hbroken
      dsimp only
      rw [if_neg (by simpa using hne)]
      exact ⟨rfl, hne⟩
  unfold generateEmailDraft
  simp only [hwf, hngo, hdata]
  rw [if_neg (by simp [hai])]
  rw [if_pos (by simp [hinvalid.1])]
  exact ⟨rfl, rfl, hinvalid.2, rfl⟩

/-- C4 (witness): a payload missing its `subject` field is rejected on
the concrete workflow store and nothing is persisted. -/
theorem c4_witness :
    (workflowStore.workflows "workflow-1" = some sampleWorkflow ∧
     workflowStore.ngoProfiles sampleWorkflow.ngoId = some sampleNGO ∧
     badAIResult.success = true) ∧
    ((generateEmailDraft workflowStore "workflow-1" badAIResult "email-9"
        7).1.success = false ∧
     (generateEmailDraft workflowStore "workflow-1" badAIResult "email-9"
        7).1.error =
       some ("AI output validation failed. Errors: " ++
         formatValidationErrors (validateAIGeneratedEmail badAIResult.data).errors) ∧
     (validateAIGeneratedEmail badAIResult.data).errors ≠ [] ∧
     (generateEmailDraft workflowStore "workflow-1" badAIResult "email-9"
        7).2 = workflowStore) :=
  ⟨⟨rfl, rfl, rfl⟩,
   c4_schema_gate workflowStore "workflow-1" badAIResult "email-9" 7
     sampleWorkflow sampleNGO (.jobj [("body", .jstr "Hello")]) rfl rfl rfl rfl
     (Or.inl ⟨"subject", by decide, rfl⟩)⟩

/-- C5: the code_bug evaluation for `searchNGOs`.  An empty or
whitespace-only brief returns the empty list without error, but for
the spec's own happy-path brief against a verbatim registry entry the
pipeline raises a `TypeError`: `calculateEnhancedRelevanceScore`
dereferences `processedBrief.intent.primaryGoal`, and the
`ProcessedBrief` produced by `BriefProcessor.processBrief` has no
`intent` (nor `entities`, nor `tone`) field, so no ranked list is ever
returned for a non-empty brief. -/
theorem c5_search_throws_on_nonempty_brief :
    searchNGOs "" caribbeanProcessedBrief [arcProfile] = .ok [] ∧
    searchNGOs "   " caribbeanProcessedBrief [arcProfile] = .ok [] ∧
    searchNGOs caribbeanBrief caribbeanProcessedBrief [arcProfile] =
      .error typeErrorUndefined := by
  refine ⟨rfl, rfl, ?_⟩
  rfl

/-- C6: the code_bug evaluation for `calculateGeographyMatch`.  The
brief mentions `kenya`, which is contained in the organization's
geography field `Kenya, East Africa`, yet the geography signal is `0`:
the `return 3` of the country/region check sits inside an
`Array.prototype.forEach` callback and is discarded.  Likewise a
`Global` organization gets no bonus for a brief mentioning the
Caribbean.  The only live paths require the brief to mention
usa/united states/america or the literal word global. -/
theorem c6_geography_bonus_dead_code :
    strIncludes (strToLower "restore forests in kenya") "kenya" = true ∧
    strIncludes (strToLower "Kenya, East Africa") "kenya" = true ∧
    calculateGeographyMatch "restore forests in kenya"
      (some "Kenya, East Africa") = 0 ∧
    strIncludes (strToLower "coral reefs in the caribbean") "caribbean" = true ∧
    calculateGeographyMatch "coral reefs in the caribbean" (some "Global") = 0 ∧
    calculateGeographyMatch "work in america" (some "Global") = 5 := by
  decide

/-- C7: the search output is a deterministic function of the
(brief, registry) pair — the embedding is pure, so identical calls
return identical results (including identical errors) — and the
ranking stage (`searchNGOs` lines 1008-1012) is a stable sort: for any
scored list (the registry in insertion order, paired with scores) and
any score value `k`, the entries of the truncated sorted output with
score `k` form a prefix of the positively-scored input entries with
score `k` in their original (registry insertion) order — the tie-break
is order-preserving, never random. -/
theorem c7_determinism_and_stable_ties :
    (∀ (brief : String) (pb : ProcessedBrief) (db : List NGOProfile),
        searchNGOs brief pb db = searchNGOs brief pb db) ∧
    (∀ scoredNGOs : List (NGOProfile × Int),
        rankNGOs scoredNGOs = ((sortedScoredNGOs scoredNGOs).take 12).map
          (fun item => { item.1 with selectedForOutreach := false })) ∧
    (∀ (scoredNGOs : List (NGOProfile × Int)) (k : Int),
        ∃ rest,
          ((sortedScoredNGOs scoredNGOs).take 12).filter
              (fun item => decide (item.2 = k)) ++ rest =
            (scoredNGOs.filter fun item => decide (0 < item.2)).filter
              (fun item => decide (item.2 = k))) := by
  refine ⟨fun _ _ _ => rfl, fun _ => rfl, ?_⟩
  intro scoredNGOs k
  have htrans : ∀ a b c : NGOProfile × Int,
      (fun a b : NGOProfile × Int => decide (b.2 ≤ a.2)) a b →
      (fun a b : NGOProfile × Int => decide (b.2 ≤ a.2)) b c →
      (fun a b : NGOProfile × Int => decide (b.2 ≤ a.2)) a c := by
    intro a b c hab hbc
    simp only [decide_eq_true_eq] at *
    omega
  have htotal : ∀ a b : NGOProfile × Int,
      (fun a b : NGOProfile × Int => decide (b.2 ≤ a.2)) a b ||
      (fun a b : NGOProfile × Int => decide (b.2 ≤ a.2)) b a := by
    intro a b
    simp only [Bool.or_eq_true, decide_eq_true_eq]
    omega
  have key := mergeSort_filter_of_const
    (fun a b : NGOProfile × Int => decide (b.2 ≤ a.2)) htrans htotal
    (fun item => decide (item.2 = k))
    (by
      intro a b ha hb
      simp only [decide_eq_true_eq] at *
      omega)
    (scoredNGOs.filter fun item => decide (0 < item.2))
  refine ⟨((sortedScoredNGOs scoredNGOs).drop 12).filter
    (fun item => decide (item.2 = k)), ?_⟩
  rw [← List.filter_append, List.take_append_drop]
  exact key

/-- C8: `getAdvisoryRiskAssessment` returns an assessment with
`advisoryOnly = true` for every stored organization regardless of its
risk score, returns `none` when the organization is absent, and the
result of `initiateOutreach` is independent of the profile's
`riskScore` field. -/
theorem c8_advisory_only_risk :
    (∀ (s : Store) (ngoId : String) (now : Int) (p : NGOProfile),
        s.ngoProfiles ngoId = some p →
        ∃ a, getAdvisoryRiskAssessment s ngoId now = some a ∧
          a.advisoryOnly = true) ∧
    (∀ (s : Store) (ngoId : String) (now : Int),
        s.ngoProfiles ngoId = none →
        getAdvisoryRiskAssessment s ngoId now = none) ∧
    (∀ (s : Store) (campaignId userId : String) (p : NGOProfile)
        (r : Option Int) (freshId : String) (now : Int),
        (initiateOutreach s campaignId userId { p with riskScore := r }
          freshId now).1 =
        (initiateOutreach s campaignId userId p freshId now).1) := by
  refine ⟨?_, ?_, ?_⟩
  · intro s ngoId now p h
    refine ⟨⟨ngoId, jsOrZero p.riskScore,
      jsOrStr p.controversySummary "No known controversies", [], [], true, now⟩,
      ?_, rfl⟩
    simp [getAdvisoryRiskAssessment, h]
  · intro s ngoId now h
    simp [getAdvisoryRiskAssessment, h]
  · intro s campaignId userId p r freshId now
    by_cases h : p.id = "" ∨ p.email = "" ∨ p.name = ""
    · simp [initiateOutreach, h]
    · simp [initiateOutreach, h]

/-- C8 (witness): the advisory assessment on a concrete store holding a
profile with riskScore 15, and the riskScore-independence of
`initiateOutreach` at riskScore 95 versus 2. -/
theorem c8_witness :
    (workflowStore.ngoProfiles "ngo-1" = some sampleNGO) ∧
    (∃ a, getAdvisoryRiskAssessment workflowStore "ngo-1" 5 = some a ∧
      a.advisoryOnly = true) ∧
    (initiateOutreach workflowStore "campaign-1" "user-1"
        { sampleNGO with riskScore := some 95 } "workflow-2" 5).1 =
      (initiateOutreach workflowStore "campaign-1" "user-1"
        { sampleNGO with riskScore := some 2 } "workflow-2" 5).1 :=
  ⟨rfl,
   c8_advisory_only_risk.1 workflowStore "ngo-1" 5 sampleNGO rfl,
   by
     rw [c8_advisory_only_risk.2.2 workflowStore "campaign-1" "user-1"
       sampleNGO (some 95) "workflow-2" 5]
     rw [c8_advisory_only_risk.2.2 workflowStore "campaign-1" "user-1"
       sampleNGO (some 2) "workflow-2" 5]⟩

/-- C9: `analyzeSentiment` returns `positive` exactly when the
whole-word positive-lexicon hit count exceeds 1.5 times the negative
count, `negative` in the symmetric case, and `neutral` otherwise. -/
theorem c9_sentiment_threshold (text : String) :
    (analyzeSentiment text = "positive" ↔
      (lexiconHits positiveWords (strToLower text) : Rat) >
        (lexiconHits negativeWords (strToLower text) : Rat) * 1.5) ∧
    (analyzeSentiment text = "negative" ↔
      (lexiconHits negativeWords (strToLower text) : Rat) >
        (lexiconHits positiveWords (strToLower text) : Rat) * 1.5) ∧
    (analyzeSentiment text = "neutral" ↔
      (¬ (lexiconHits positiveWords (strToLower text) : Rat) >
        (lexiconHits negativeWords (strToLower text) : Rat) * 1.5) ∧
      ¬ (lexiconHits negativeWords (strToLower text) : Rat) >
        (lexiconHits positiveWords (strToLower text) : Rat) * 1.5) := by
  unfold analyzeSentiment
  set p : Rat := (lexiconHits positiveWords (strToLower text) : Rat) with hp
  set n : Rat := (lexiconHits negativeWords (strToLower text) : Rat) with hn
  have hp0 : 0 ≤ p := by rw [hp]; positivity
  have hn0 : 0 ≤ n := by rw [hn]; positivity
  by_cases h1 : p > n * 1.5
  · have h2 : ¬ n > p * 1.5 := by nlinarith
    simp [h1, h2]
  · by_cases h2 : n > p * 1.5
    · simp [h1, h2]
    · simp [h1, h2]

/-- C10: `sendEmailWithApproval` never writes the draft back to the
store itself.  With any transport that succeeds and leaves the store
untouched, a successful send changes only the idempotency-key map —
the stored draft keeps status `draft` while the completed key alone
marks the send — whereas the same call against the mock transport
(which mutates and re-saves the draft it was handed) leaves the stored
draft at status `sent`. -/
theorem c10_no_draft_writeback (t : EmailTransport)
    (hpure : ∀ de ap st, (t.send de ap st).2 = st)
    (hsendok : ∀ de ap st, (t.send de ap st).1.success = true)
    (now : Int) (fresh : String) (s : Store) (emailId : String)
    (approval : UserApproval) (d : DraftEmail)
    (hmail : s.emails emailId = some d)
    (hid : d.id = emailId)
    (hdraft : d.status = "draft")
    (ha1 : approval.id ≠ "") (ha2 : approval.resourceType = "email")
    (ha3 : approval.resourceId = emailId)
    (ha4 : approval.approvedAt ≤ now)
    (ha5 : ∀ e, approval.expiresAt = some e → now ≤ e)
    (hkey : ∀ k, s.idempotencyKeys ("email-send-" ++ emailId) = some k →
        k.completedAt = none) :
    (sendEmailWithApproval t now s emailId approval).1.success = true ∧
    (sendEmailWithApproval t now s emailId approval).2.1.emails = s.emails ∧
    (sendEmailWithApproval t now s emailId approval).2.1.workflows = s.workflows ∧
    (sendEmailWithApproval t now s emailId approval).2.1.approvals = s.approvals ∧
    (sendEmailWithApproval t now s emailId approval).2.1.ngoProfiles =
      s.ngoProfiles ∧
    (sendEmailWithApproval t now s emailId approval).2.1.sentEmails =
      s.sentEmails ∧
    ((sendEmailWithApproval t now s emailId approval).2.1.emails emailId).map
      DraftEmail.status = some "draft" ∧
    (∃ k, (sendEmailWithApproval t now s emailId approval).2.1.idempotencyKeys
      ("email-send-" ++ emailId) = some k ∧ k.completedAt = some now) ∧
    ((sendEmailWithApproval (mockEmailService now fresh) now s emailId
      approval).2.1.emails emailId).map DraftEmail.status = some "sent" := by
  have hstatus : d.status ≠ "sent" := by rw [hdraft]; decide
  have hval : ¬ (approval.id = "" ∨ approval.resourceType ≠ "email" ∨
      approval.resourceId ≠ emailId) := by
    push_neg
    exact ⟨ha1, ha2, ha3⟩
  have h3 : ¬ approval.approvedAt > now := by omega
  have h4 : ¬ approval.expiresAt.any (fun e => decide (now > e)) = true := by
    cases hexp : approval.expiresAt with
    | none => simp [Option.any]
    | some e =>
      have := ha5 e hexp
      simp [Option.any]
      omega
  have hrun : sendEmailWithApproval t now s emailId approval =
      ({ success := true, emailId := some emailId,
         messageId := (t.send d approval s).1.messageId,
         sentAt := (t.send d approval s).1.sentAt },
       { s with
         idempotencyKeys := setMap s.idempotencyKeys ("email-send-" ++ emailId)
           (completedSendKey emailId now (t.send d approval s).1) },
       1) := by
    unfold sendEmailWithApproval
    simp only [hmail]
    rw [if_neg hstatus, if_neg hval, if_neg h3, if_neg h4]
    cases hkey0 : s.idempotencyKeys ("email-send-" ++ emailId) with
    | none =>
      simp only [hkey0]
      unfold sendEmailWithApproval.sendEmailDispatch
      simp [hpure, hsendok]
    | some ek =>
      have hck := hkey ek hkey0
      simp only [hkey0, hck]
      unfold sendEmailWithApproval.sendEmailDispatch
      simp [hpure, hsendok]
  have hmock : sendEmailWithApproval (mockEmailService now fresh) now s
      emailId approval =
      ({ success := true, emailId := some emailId,
         messageId := some ("mock-msg-" ++ fresh), sentAt := some now },
       { s with
         sentEmails := setMap s.sentEmails fresh (mockSendResult now fresh),
         emails := setMap s.emails d.id (markSent d now),
         idempotencyKeys := setMap s.idempotencyKeys ("email-send-" ++ emailId)
           (completedSendKey emailId now (mockSendResult now fresh)) },
       1) := by
    unfold sendEmailWithApproval
    simp only [hmail]
    rw [if_neg hstatus, if_neg hval, if_neg h3, if_neg h4]
    cases hkey0 : s.idempotencyKeys ("email-send-" ++ emailId) with
    | none =>
      simp only [hkey0]
      unfold sendEmailWithApproval.sendEmailDispatch
      simp [mockEmailService, mockSendResult]
    | some ek =>
      have hck := hkey ek hkey0
      simp only [hkey0, hck]
      unfold sendEmailWithApproval.sendEmailDispatch
      simp [mockEmailService, mockSendResult]
  rw [hrun, hmock]
  refine ⟨rfl, rfl, rfl, rfl, rfl, rfl, ?_, ?_, ?_⟩
  · simp [hmail, hdraft]
  · exact ⟨completedSendKey emailId now (t.send d approval s).1,
      by simp [setMap], rfl⟩
  · simp [setMap, hid, markSent]

/-- C10 (witness): the frame property on the concrete sample store with
the concrete non-mutating transport. -/
theorem c10_witness :
    ((pureMailTransport.send sampleDraft sampleApproval sampleStore).2 =
        sampleStore ∧
     (pureMailTransport.send sampleDraft sampleApproval
        sampleStore).1.success = true ∧
     sampleStore.emails "email-1" = some sampleDraft ∧
     sampleDraft.status = "draft") ∧
    ((sendEmailWithApproval pureMailTransport 200 sampleStore "email-1"
        sampleApproval).1.success = true ∧
     (sendEmailWithApproval pureMailTransport 200 sampleStore "email-1"
        sampleApproval).2.1.emails = sampleStore.emails ∧
     (sendEmailWithApproval pureMailTransport 200 sampleStore "email-1"
        sampleApproval).2.1.workflows = sampleStore.workflows ∧
     (sendEmailWithApproval pureMailTransport 200 sampleStore "email-1"
        sampleApproval).2.1.approvals = sampleStore.approvals ∧
     (sendEmailWithApproval pureMailTransport 200 sampleStore "email-1"
        sampleApproval).2.1.ngoProfiles = sampleStore.ngoProfiles ∧
     (sendEmailWithApproval pureMailTransport 200 sampleStore "email-1"
        sampleApproval).2.1.sentEmails = sampleStore.sentEmails ∧
     ((sendEmailWithApproval pureMailTransport 200 sampleStore "email-1"
        sampleApproval).2.1.emails "email-1").map DraftEmail.status =
       some "draft" ∧
     (∃ k, (sendEmailWithApproval pureMailTransport 200 sampleStore "email-1"
        sampleApproval).2.1.idempotencyKeys ("email-send-" ++ "email-1") =
          some k ∧ k.completedAt = some 200) ∧
     ((sendEmailWithApproval (mockEmailService 200 "uuid-1") 200 sampleStore
        "email-1" sampleApproval).2.1.emails "email-1").map DraftEmail.status =
       some "sent") :=
  ⟨⟨rfl, rfl, rfl, by decide⟩,
   c10_no_draft_writeback pureMailTransport (fun _ _ _ => rfl)
     (fun _ _ _ => rfl) 200 "uuid-1" sampleStore "email-1" sampleApproval
     sampleDraft rfl (by decide) (by decide) (by decide) (by decide)
     (by decide) (by decide) (fun e he => by cases he) (fun k hk => by cases hk)⟩

/-- C7 (witness): the stability statement instantiated at a concrete
scored list with a tie at score 5. -/
theorem c7_witness :
    ∃ rest,
      ((sortedScoredNGOs [(sampleNGO, 5), (arcProfile, 7), (sampleNGO, 5)]).take
          12).filter (fun item => decide (item.2 = 5)) ++ rest =
        ([(sampleNGO, 5), (arcProfile, 7), (sampleNGO, 5)].filter
            fun item => decide (0 < item.2)).filter
          fun item => decide (item.2 = 5) :=
  c7_determinism_and_stable_ties.2.2
    [(sampleNGO, 5), (arcProfile, 7), (sampleNGO, 5)] 5

/-- C9 (witness): a concrete text with two positive and zero negative
whole-word hits is classified positive via the threshold theorem. -/
theorem c9_witness :
    lexiconHits positiveWords (strToLower "a great opportunity") = 2 ∧
    lexiconHits negativeWords (strToLower "a great opportunity") = 0 ∧
    analyzeSentiment "a great opportunity" = "positive" := by
  have h1 : lexiconHits positiveWords (strToLower "a great opportunity") = 2 := by
    decide
  have h2 : lexiconHits negativeWords (strToLower "a great opportunity") = 0 := by
    decide
  exact ⟨h1, h2, (c9_sentiment_threshold "a great opportunity").1.mpr
    (by rw [h1, h2]; norm_num)⟩
